import Mathlib

/-!
Verification of the Access Control and Ownership-Consistency Engine of the
expense-tracker service.  The data model (User, Category, Expense), the route
handlers of the expense router, the admin router and the profile routes, and
the credential helpers are shallowly embedded from the JavaScript source:
each handler becomes a pure Lean function over an explicit store, translated
statement by statement.  Mongo documents become structures, collections become
lists, findById and findOne become list lookups, and a thrown HttpError
becomes an error value paired with the store as it stood at the throw site,
so that absence of writes is directly observable in the result.
-/

namespace ExpenseTracker

/-- Object identifiers (Mongo ObjectId values) are modelled as naturals; the
store generates them, so creation handlers receive the fresh id as an
argument. -/
abbrev ObjectId := Nat

/-- Account record, from the user schema in models/user.js: email, name,
passwordHash and a role that is either "user" or "admin". -/
structure User where
  _id : ObjectId
  email : String
  name : String
  passwordHash : String
  role : String
deriving Repr, DecidableEq

/-- Category record, from models/category.js: a name and an owning user
reference. -/
structure Category where
  _id : ObjectId
  name : String
  user : ObjectId
deriving Repr, DecidableEq

/-- Expense record, from models/expense.js: owning user, category reference,
amount, currency, date (modelled as a timestamp) and the optional note and
description text fields. -/
structure Expense where
  _id : ObjectId
  user : ObjectId
  category : ObjectId
  amount : Int
  currency : String
  date : Nat
  note : Option String
  description : Option String
deriving Repr, DecidableEq

/-- The persistent store: the three Mongo collections as lists. -/
structure Store where
  users : List User
  categories : List Category
  expenses : List Expense
deriving Repr, DecidableEq

/-- Error taxonomy of utils/HttpError.js, by status code: 400 badRequest,
401 unauthorized, 404 notFound, 403 forbidden, 500 internal. -/
inductive HErr where
  | badRequest (msg : String)
  | unauthorized (msg : String)
  | forbidden (msg : String)
  | notFound (msg : String)
  | internal (msg : String)
deriving Repr, DecidableEq

/-- Model of User.findById. -/
def Store.findUser (s : Store) (id : ObjectId) : Option User :=
  s.users.find? (fun u => u._id == id)

/-- Model of Category.findById. -/
def Store.findCategory (s : Store) (id : ObjectId) : Option Category :=
  s.categories.find? (fun c => c._id == id)

/-- Model of Expense.findById. -/
def Store.findExpense (s : Store) (id : ObjectId) : Option Expense :=
  s.expenses.find? (fun e => e._id == id)

/-- Model of User.findByIdAndUpdate: replace the user with the given id. -/
def Store.updateUser (s : Store) (id : ObjectId) (u' : User) : Store :=
  { s with users := s.users.map (fun u => if u._id == id then u' else u) }

/-- Model of Expense.findByIdAndUpdate: replace the expense with the given
id. -/
def Store.replaceExpense (s : Store) (id : ObjectId) (e' : Expense) : Store :=
  { s with expenses := s.expenses.map (fun e => if e._id == id then e' else e) }

/-- Modelled from the spec: bcrypt lives in node_modules, outside this
repository, so only its behavioural contract (spec 4.1) is embedded: a salted
one-way digest that verify recognises.  Salt freshness is outside the model;
the digest is a tagged injection of the plaintext, which is enough for every
claim here, since the claims only condition on whether verification succeeds. -/
def bcryptDigest (plaintext : String) : String :=
  "$2b$10$" ++ plaintext

/-- Model of the User.hashPassword static of models/user.js (bcrypt.hash with
ten salt rounds, see bcryptDigest for the abstraction of bcrypt itself). -/
def User.hashPassword (password : String) : String :=
  bcryptDigest password

/-- Model of the verifyPassword method of models/user.js: a falsy password
returns false outright, otherwise bcrypt.compare against the stored digest. -/
def User.verifyPassword (u : User) (password : String) : Bool :=
  if password == "" then false
  else bcryptDigest password == u.passwordHash

/-- JavaScript a || b for a possibly-absent string with a string fallback:
absent and the empty string are falsy. -/
def jsOrStr (a : Option String) (fallback : String) : String :=
  match a with
  | none => fallback
  | some s => if s == "" then fallback else s

/-- JavaScript a || b for two possibly-absent strings. -/
def jsOrOpt (a b : Option String) : Option String :=
  match a with
  | none => b
  | some s => if s == "" then b else some s

/-- The mutual-fallback merge used by the expense update handlers:
x !== undefined ? x : (y !== undefined ? y : old). -/
def mergeNote (x y old : Option String) : Option String :=
  match x with
  | some n => some n
  | none =>
    match y with
    | some d => some d
    | none => old

/-- View of the backing store as seen by one middleware lookup: either the
store answers, or the lookup fails (the findById promise rejects). -/
inductive DbView where
  | store (s : Store)
  | failure
deriving Repr

/-- Modelled from the spec: the Authentication Gate middleware file
middleware/auth.js is not among the provided sources (only its unit tests and
its importers are), so requireAuth is modelled from spec 4.2, in agreement
with tests/unit/middleware/auth.test.js: a request is authenticated only when
a session exists, the session carries a bound account id, and an account with
that id exists in the store; any failure yields the unauthorized error before
the downstream handler runs, and a store failure during the lookup propagates
as a distinct internal error.  The session argument is the possibly-absent
req.session carrying a possibly-absent userId; next is the downstream
handler, which receives the resolved account. -/
def requireAuth {α : Type} (session : Option (Option ObjectId)) (db : DbView)
    (next : User → Except HErr α) : Except HErr α :=
  match session with
  | none => .error (.unauthorized "Authentication required")
  | some none => .error (.unauthorized "Authentication required")
  | some (some userId) =>
    match db with
    | .failure => .error (.internal "Database error")
    | .store s =>
      match s.findUser userId with
      | none => .error (.unauthorized "User not found")
      | some user => next user

/-- Modelled from the spec: requireRole of the missing middleware/auth.js,
from spec 4.3 in agreement with its unit tests: it performs the same
authentication steps as requireAuth and only then compares the resolved role
against the allowed set, yielding the forbidden error on a mismatch. -/
def requireRole {α : Type} (roles : List String) (session : Option (Option ObjectId))
    (db : DbView) (next : User → Except HErr α) : Except HErr α :=
  requireAuth session db (fun user =>
    if roles.contains user.role then next user
    else .error (.forbidden "Forbidden: Insufficient permissions"))

/-- Modelled from the spec: requireAdmin is requireRole with the singleton
admin role set (spec 4.3). -/
def requireAdmin {α : Type} (session : Option (Option ObjectId)) (db : DbView)
    (next : User → Except HErr α) : Except HErr α :=
  requireRole ["admin"] session db next

/-- Request body accepted by expenseSchema of utils/validators.js: categoryId
and amount are required, currency, date, note and description are optional. -/
structure ExpenseBody where
  categoryId : ObjectId
  amount : Int
  currency : Option String
  date : Option Nat
  note : Option String
  description : Option String
deriving Repr, DecidableEq

/-- Handler GET / of the expense router: list the expenses of the
authenticated user, optionally narrowed to one category by the categoryId
query parameter, newest first.  The filter always pins user to the
requester. -/
def listExpenses (s : Store) (requester : User) (categoryId : Option ObjectId) :
    List Expense :=
  (s.expenses.filter (fun e =>
      e.user == requester._id &&
        match categoryId with
        | some cid => e.category == cid
        | none => true)).mergeSort
    (fun a b => decide (b.date ≤ a.date))

/-- Handler GET /:id of the expense router: fetch the expense, then allow the
view only to its owner or to an admin. -/
def getExpense (s : Store) (requester : User) (id : ObjectId) : Except HErr Expense :=
  match s.findExpense id with
  | none => .error (.notFound "Could not find expense")
  | some expense =>
    if expense.user != requester._id && requester.role != "admin" then
      .error (.forbidden "Forbidden")
    else
      .ok expense

/-- Handler POST / of the expense router: the referenced category must exist,
then the expense is created for the requester with currency defaulting to
EUR, date defaulting to the current time (the schema default fires because
the handler passes undefined), and note and description filled from each
other when only one is supplied. -/
def createExpense (s : Store) (requester : User) (b : ExpenseBody) (now : Nat)
    (newId : ObjectId) : Except HErr Expense × Store :=
  match s.findCategory b.categoryId with
  | none => (.error (.notFound "Category not found"), s)
  | some category =>
    let expense : Expense :=
      { _id := newId
        user := requester._id
        category := category._id
        amount := b.amount
        currency := jsOrStr b.currency "EUR"
        date := b.date.getD now
        note := jsOrOpt b.note b.description
        description := jsOrOpt b.description b.note }
    (.ok expense, { s with expenses := s.expenses ++ [expense] })

/-- Handler DELETE /:id of the expense router: fetch the expense, allow only
its owner or an admin, then remove it. -/
def deleteExpense (s : Store) (requester : User) (id : ObjectId) :
    Except HErr ObjectId × Store :=
  match s.findExpense id with
  | none => (.error (.notFound "Could not find expense"), s)
  | some expense =>
    if expense.user != requester._id && requester.role != "admin" then
      (.error (.forbidden "Forbidden"), s)
    else
      (.ok id, { s with expenses := s.expenses.filter (fun e => e._id != id) })

/-- Update object of PUT /:id of the expense router: category and amount are
always replaced, currency and date fall back to the stored values when
absent, and note and description fall back to each other and then to the
stored values. -/
def mergeExpenseBody (expense : Expense) (b : ExpenseBody) (category : Category) :
    Expense :=
  { expense with
    category := category._id
    amount := b.amount
    currency := jsOrStr b.currency expense.currency
    date := b.date.getD expense.date
    note := mergeNote b.note b.description expense.note
    description := mergeNote b.description b.note expense.description }

/-- Handler PUT /:id of the expense router: fetch the expense, allow only its
owner or an admin, validate the new category, then write the merged record
built by mergeExpenseBody. -/
def updateExpense (s : Store) (requester : User) (id : ObjectId) (b : ExpenseBody) :
    Except HErr Expense × Store :=
  match s.findExpense id with
  | none => (.error (.notFound "Could not find expense"), s)
  | some expense =>
    if expense.user != requester._id && requester.role != "admin" then
      (.error (.forbidden "Forbidden"), s)
    else
      match s.findCategory b.categoryId with
      | none => (.error (.notFound "Category not found"), s)
      | some category =>
        let e' := mergeExpenseBody expense b category
        (.ok e', s.replaceExpense id e')

/-- Request body accepted by adminCategorySchema of utils/validators.js: a
required name plus an optional userId naming the target owner. -/
structure AdminCategoryBody where
  name : String
  userId : Option ObjectId
deriving Repr, DecidableEq

/-- Shared tail of the category creation handler once the owner is resolved:
reject when a category with the same name and owner already exists, otherwise
insert the new category. -/
def createCategoryOwned (s : Store) (name : String) (owner : ObjectId)
    (newId : ObjectId) : Except HErr Category × Store :=
  if (s.categories.find? (fun c => c.name == name && c.user == owner)).isSome then
    (.error (.badRequest "Category already exists for this user"), s)
  else
    let category : Category := { _id := newId, name := name, user := owner }
    (.ok category, { s with categories := s.categories ++ [category] })

/-- Handler POST /categories of the admin router: when a userId is supplied
the target user must exist and becomes the owner, otherwise the requesting
admin owns the category; then the duplicate check and the insert of
createCategoryOwned run. -/
def createCategory (s : Store) (requester : User) (b : AdminCategoryBody)
    (newId : ObjectId) : Except HErr Category × Store :=
  match b.userId with
  | some uid =>
    match s.findUser uid with
    | none => (.error (.notFound "User not found"), s)
    | some target => createCategoryOwned s b.name target._id newId
  | none => createCategoryOwned s b.name requester._id newId

/-- Message of the deletion guard of DELETE /categories/:id, carrying the
count of referencing expenses. -/
def cannotDeleteCategoryMsg (n : Nat) : String :=
  s!"Cannot delete category: {n} expense(s) are assigned to this category"

/-- Handler DELETE /categories/:id of the admin router: the category must
exist, the count of expenses referencing it must be zero, and only then is it
removed. -/
def deleteCategory (s : Store) (id : ObjectId) : Except HErr ObjectId × Store :=
  match s.findCategory id with
  | none => (.error (.notFound "Category not found"), s)
  | some category =>
    let expenseCount := s.expenses.countP (fun e => e.category == category._id)
    if expenseCount > 0 then
      (.error (.badRequest (cannotDeleteCategoryMsg expenseCount)), s)
    else
      (.ok id, { s with categories := s.categories.filter (fun c => c._id != id) })

/-- Request body accepted by adminExpenseSchema of utils/validators.js: the
expense body plus an optional userId assigning the owner. -/
structure AdminExpenseBody where
  userId : Option ObjectId
  categoryId : ObjectId
  amount : Int
  currency : Option String
  date : Option Nat
  note : Option String
  description : Option String
deriving Repr, DecidableEq

/-- Update object of PUT /expenses/:id of the admin router: like
mergeExpenseBody, with the owner additionally falling back to the stored
owner when no userId is supplied. -/
def mergeAdminExpenseBody (expense : Expense) (b : AdminExpenseBody)
    (category : Category) : Expense :=
  { expense with
    user := b.userId.getD expense.user
    category := category._id
    amount := b.amount
    currency := jsOrStr b.currency expense.currency
    date := b.date.getD expense.date
    note := mergeNote b.note b.description expense.note
    description := mergeNote b.description b.note expense.description }

/-- Shared tail of PUT /expenses/:id of the admin router once the optional
target user is validated: validate the category, then write the merged
record built by mergeAdminExpenseBody. -/
def adminExpenseWrite (s : Store) (id : ObjectId) (expense : Expense)
    (b : AdminExpenseBody) : Except HErr Expense × Store :=
  match s.findCategory b.categoryId with
  | none => (.error (.notFound "Category not found"), s)
  | some category =>
    let e' := mergeAdminExpenseBody expense b category
    (.ok e', s.replaceExpense id e')

/-- Handler PUT /expenses/:id of the admin router: the expense must exist;
when a userId is supplied that user must exist; then adminExpenseWrite
validates the category and writes the merge. -/
def adminUpdateExpense (s : Store) (id : ObjectId) (b : AdminExpenseBody) :
    Except HErr Expense × Store :=
  match s.findExpense id with
  | none => (.error (.notFound "Could not find expense"), s)
  | some expense =>
    match b.userId with
    | some uid =>
      match s.findUser uid with
      | none => (.error (.notFound "User not found"), s)
      | some _ => adminExpenseWrite s id expense b
    | none => adminExpenseWrite s id expense b

/-- Projection of a user as returned by GET /users of the admin router, whose
query selects every field except passwordHash. -/
structure UserPublic where
  _id : ObjectId
  email : String
  name : String
  role : String
deriving Repr, DecidableEq

/-- Handler GET /users of the admin router: every user, with the select
clause stripping passwordHash at query level. -/
def adminListUsers (s : Store) : List UserPublic :=
  s.users.map (fun u =>
    { _id := u._id, email := u.email, name := u.name, role := u.role })

/-- Shape of a user serialised by the toJSON transform of models/user.js: the
transform writes id from the object id and deletes the internal id, version
key, passwordHash and both timestamps, leaving exactly these fields. -/
structure UserJson where
  id : String
  email : String
  name : String
  role : String
deriving Repr, DecidableEq

/-- Model of the toJSON transform of models/user.js. -/
def User.toJson (u : User) : UserJson :=
  { id := toString u._id, email := u.email, name := u.name, role := u.role }

/-- Patch accepted by updateProfileSchema of utils/validators.js: every field
optional. -/
structure ProfilePatch where
  name : Option String
  email : Option String
  currentPassword : Option String
  newPassword : Option String
deriving Repr, DecidableEq

/-- Final write of PUT /profile: findByIdAndUpdate with the accumulated
updates object, whose keys are exactly the supplied fields (plus the new
digest when a password change was requested and verified). -/
def profileWrite (s : Store) (userId : ObjectId) (user : User) (p : ProfilePatch)
    (newHash : Option String) : Except HErr User × Store :=
  let u' : User :=
    { user with
      name := p.name.getD user.name
      email := p.email.getD user.email
      passwordHash := newHash.getD user.passwordHash }
  (.ok u', s.updateUser userId u')

/-- Password-change block of PUT /profile: when newPassword is supplied, a
falsy currentPassword is rejected, then the current password is verified
against the stored digest before the new digest enters the updates object;
only after these checks does profileWrite touch the store. -/
def profileApplyPassword (s : Store) (userId : ObjectId) (user : User)
    (p : ProfilePatch) : Except HErr User × Store :=
  match p.newPassword with
  | some np =>
    if p.currentPassword.getD "" == "" then
      (.error (.badRequest "Current password is required to change password"), s)
    else if user.verifyPassword (p.currentPassword.getD "") then
      profileWrite s userId user p (some (User.hashPassword np))
    else
      (.error (.unauthorized "Current password is incorrect"), s)
  | none => profileWrite s userId user p none

/-- Handler PUT /profile: load the caller, run the email-uniqueness check
when an email is supplied, run the password-change checks when a new password
is supplied, and only then write the merged record. -/
def updateProfile (s : Store) (userId : ObjectId) (p : ProfilePatch) :
    Except HErr User × Store :=
  match s.findUser userId with
  | none => (.error (.unauthorized "User not found"), s)
  | some user =>
    match p.email with
    | some e =>
      if (s.users.find? (fun u => u.email == e && u._id != userId)).isSome then
        (.error (.badRequest "Email already exists"), s)
      else
        profileApplyPassword s userId user p
    | none => profileApplyPassword s userId user p

/-- Store operations issued by the cascade of DELETE /profile. -/
inductive DbOp where
  | delUser (id : ObjectId)
  | delExpensesOf (userId : ObjectId)
  | delCategoriesOf (userId : ObjectId)
deriving Repr, DecidableEq, BEq

/-- Effect of one cascade operation on the store. -/
def applyOp (s : Store) : DbOp → Store
  | .delUser id => { s with users := s.users.filter (fun u => u._id != id) }
  | .delExpensesOf uid => { s with expenses := s.expenses.filter (fun e => e.user != uid) }
  | .delCategoriesOf uid => { s with categories := s.categories.filter (fun c => c.user != uid) }

/-- A phase is a batch of operations issued concurrently (one Promise.all);
a schedule is the sequence of phases a handler awaits one after another. -/
abbrev Phase := List DbOp

/-- Sequence of concurrently-issued batches. -/
abbrev Schedule := List Phase

/-- Final-state effect of one concurrent batch; the three cascade operations
touch disjoint collections, so the fold order does not affect the result. -/
def applyPhase (s : Store) (p : Phase) : Store :=
  p.foldl applyOp s

/-- Handler DELETE /profile: load the caller, verify the supplied password,
and on success issue the three removals - the account record, the expenses of
the account and the categories of the account - as one Promise.all batch.
The result carries the outcome, the final store and the schedule of issued
phases. -/
def deleteAccount (s : Store) (userId : ObjectId) (password : String) :
    Except HErr Unit × Store × Schedule :=
  match s.findUser userId with
  | none => (.error (.unauthorized "User not found"), s, [])
  | some user =>
    if user.verifyPassword password then
      let phase : Phase := [.delUser userId, .delExpensesOf userId, .delCategoriesOf userId]
      (.ok (), applyPhase s phase, [phase])
    else
      (.error (.unauthorized "Invalid password"), s, [])

/-- Index of the phase in which an operation is issued. -/
def phaseIndex (sched : Schedule) (op : DbOp) : Option Nat :=
  sched.findIdx? (fun p => p.contains op)

/-- Decides whether operation a completes before operation b begins: with
phases awaited in sequence and every operation of a phase in flight at once,
that holds exactly when the phase of a strictly precedes the phase of b. -/
def completesBefore (sched : Schedule) (a b : DbOp) : Bool :=
  match phaseIndex sched a, phaseIndex sched b with
  | some i, some j => i < j
  | _, _ => false

/-- The ordering the claim asserts for the cascade of account uid: the
expense removal completes before the category removal begins, which
completes before the account-record removal begins. -/
def orderedCascade (sched : Schedule) (uid : ObjectId) : Bool :=
  completesBefore sched (.delExpensesOf uid) (.delCategoriesOf uid) &&
    completesBefore sched (.delCategoriesOf uid) (.delUser uid)

/-! Concrete fixtures used by the closed witness and counterexample
theorems. -/

/-- Sample standard account. -/
def alice : User :=
  { _id := 1, email := "a@x.com", name := "Alice"
    passwordHash := User.hashPassword "Password123!", role := "user" }

/-- Sample admin account. -/
def rootAdmin : User :=
  { _id := 2, email := "admin@x.com", name := "Root"
    passwordHash := User.hashPassword "Admin123!", role := "admin" }

/-- Second sample standard account. -/
def bob : User :=
  { _id := 3, email := "b@x.com", name := "Bob"
    passwordHash := User.hashPassword "Babble123!", role := "user" }

/-- Sample category owned by alice. -/
def catFood : Category := { _id := 10, name := "Food", user := 1 }

/-- Sample expense of alice referencing catFood. -/
def expLunch : Expense :=
  { _id := 100, user := 1, category := 10, amount := 25, currency := "EUR"
    date := 5, note := some "Lunch", description := none }

/-- Sample store holding the fixtures above. -/
def sampleStore : Store :=
  { users := [alice, rootAdmin, bob], categories := [catFood], expenses := [expLunch] }

/-- Claim C1 counterexample: at a concrete store in which alice (id 1) owns a
category and an expense, self-service deletion with the correct password
succeeds, yet the removal is not ordered as the claim states: the schedule of
issued operations fails the expenses-then-categories-then-account ordering,
and in particular the account-record removal is issued in the very same
concurrent batch as the expense removal, so a later step does begin before
the earlier one completes. -/
theorem C1_counterexample :
    (deleteAccount sampleStore 1 "Password123!").1 = .ok () ∧
    orderedCascade (deleteAccount sampleStore 1 "Password123!").2.2 1 = false ∧
    phaseIndex (deleteAccount sampleStore 1 "Password123!").2.2 (.delUser 1) =
      phaseIndex (deleteAccount sampleStore 1 "Password123!").2.2 (.delExpensesOf 1) :=
  ⟨rfl, rfl, rfl⟩

/-- Claim C1 (amended): when self-service account deletion runs with a
correct password, the removal of the expenses of the account, of its
categories and of the account record is issued as a single concurrent batch
(one Promise.all), with no ordering among the three steps; the whole batch
completes before the operation returns, so afterwards the account record,
all its expenses and all its categories are gone. -/
theorem C1_cascade_single_batch (s : Store) (uid : ObjectId) (pw : String) (u : User)
    (hu : s.findUser uid = some u) (hpw : u.verifyPassword pw = true) :
    deleteAccount s uid pw =
      (.ok (), applyPhase s [.delUser uid, .delExpensesOf uid, .delCategoriesOf uid],
        [[DbOp.delUser uid, DbOp.delExpensesOf uid, DbOp.delCategoriesOf uid]]) ∧
    (deleteAccount s uid pw).2.1.findUser uid = none ∧
    (∀ e ∈ (deleteAccount s uid pw).2.1.expenses, e.user ≠ uid) ∧
    (∀ c ∈ (deleteAccount s uid pw).2.1.categories, c.user ≠ uid) := by
  have hrun : deleteAccount s uid pw =
      (.ok (), applyPhase s [.delUser uid, .delExpensesOf uid, .delCategoriesOf uid],
        [[DbOp.delUser uid, DbOp.delExpensesOf uid, DbOp.delCategoriesOf uid]]) := by
    simp [deleteAccount, hu, hpw]
  refine ⟨hrun, ?_, ?_, ?_⟩ <;> rw [hrun]
  · simp [applyPhase, applyOp, Store.findUser, List.find?_eq_none, List.mem_filter]
  · simp [applyPhase, applyOp, List.mem_filter]
  · simp [applyPhase, applyOp, List.mem_filter]

/-- Witness for C1: the amended cascade behaviour evaluated at the sample
store with the correct password of alice. -/
theorem C1_witness :
    deleteAccount sampleStore 1 "Password123!" =
      (.ok (), applyPhase sampleStore [.delUser 1, .delExpensesOf 1, .delCategoriesOf 1],
        [[DbOp.delUser 1, DbOp.delExpensesOf 1, DbOp.delCategoriesOf 1]]) ∧
    (deleteAccount sampleStore 1 "Password123!").2.1.findUser 1 = none ∧
    (∀ e ∈ (deleteAccount sampleStore 1 "Password123!").2.1.expenses, e.user ≠ 1) ∧
    (∀ c ∈ (deleteAccount sampleStore 1 "Password123!").2.1.categories, c.user ≠ 1) :=
  C1_cascade_single_batch sampleStore 1 "Password123!" alice (by decide) (by decide)

/-- Helper: the password-change block of PUT /profile either performs the
single write of the handler, or errors with the store it was given. -/
theorem profileApplyPassword_cases (s : Store) (userId : ObjectId) (user : User)
    (p : ProfilePatch) :
    (∃ u', profileApplyPassword s userId user p = (.ok u', s.updateUser userId u')) ∨
    (∃ err, profileApplyPassword s userId user p = (.error err, s)) := by
  rcases hnp : p.newPassword with _ | np
  · exact .inl ⟨{ user with name := p.name.getD user.name, email := p.email.getD user.email },
      by simp [profileApplyPassword, hnp, profileWrite]⟩
  · by_cases h1 : p.currentPassword.getD "" == ""
    · exact .inr ⟨.badRequest "Current password is required to change password",
        by simp [profileApplyPassword, hnp, h1]⟩
    · by_cases h2 : user.verifyPassword (p.currentPassword.getD "")
      · refine .inl ⟨{ user with
            name := p.name.getD user.name
            email := p.email.getD user.email
            passwordHash := User.hashPassword np }, ?_⟩
        simp [profileApplyPassword, hnp, h1, h2, profileWrite]
      · exact .inr ⟨.unauthorized "Current password is incorrect",
          by simp [profileApplyPassword, hnp, h1, h2]⟩

/-- Helper frame fact: whenever the password-change block of PUT /profile
errors, the store it returns is exactly the store it was given. -/
theorem profileApplyPassword_frame (s : Store) (userId : ObjectId) (user : User)
    (p : ProfilePatch) (err : HErr)
    (h : (profileApplyPassword s userId user p).1 = .error err) :
    (profileApplyPassword s userId user p).2 = s := by
  rcases profileApplyPassword_cases s userId user p with ⟨u', hc⟩ | ⟨e, hc⟩
  · rw [hc] at h
    exact absurd h (by simp)
  · rw [hc]

/-- Claim C2: failed precondition checks leave the store untouched.  For
account deletion, a failed password verification aborts with the
unauthorized error, issues no store operation, and returns the store exactly
as it was, so every account, category and expense is as before.  For profile
update, any error - which includes a failed email-uniqueness check and a
failed current-password verification, the only checks in the handler - leaves
the store exactly as it was; the single write of the handler happens only
after every check has passed. -/
theorem C2_failed_checks_no_write :
    (∀ (s : Store) (uid : ObjectId) (pw : String) (u : User),
        s.findUser uid = some u → u.verifyPassword pw = false →
        deleteAccount s uid pw = (.error (.unauthorized "Invalid password"), s, [])) ∧
    (∀ (s : Store) (uid : ObjectId) (p : ProfilePatch) (err : HErr),
        (updateProfile s uid p).1 = .error err → (updateProfile s uid p).2 = s) := by
  constructor
  · intro s uid pw u hu hpw
    simp [deleteAccount, hu, hpw]
  · intro s uid p err h
    rcases hu : s.findUser uid with _ | user
    · simp [updateProfile, hu]
    · rcases he : p.email with _ | e
      · have h' : updateProfile s uid p = profileApplyPassword s uid user p := by
          simp [updateProfile, hu, he]
        rw [h'] at h ⊢
        exact profileApplyPassword_frame s uid user p err h
      · by_cases hc : (s.users.find? (fun u => u.email == e && u._id != uid)).isSome
        · have h' : updateProfile s uid p = (.error (.badRequest "Email already exists"), s) := by
            simp [updateProfile, hu, he, hc]
          rw [h']
        · have h' : updateProfile s uid p = profileApplyPassword s uid user p := by
            simp [updateProfile, hu, he, hc]
          rw [h'] at h ⊢
          exact profileApplyPassword_frame s uid user p err h

/-- Witness for C2: at the sample store, deleting the account of alice with a
wrong password returns the error and the unchanged store, and a profile
update by alice claiming the email of bob fails the uniqueness check and
leaves the store unchanged. -/
theorem C2_witness :
    deleteAccount sampleStore 1 "wrong" =
      (.error (.unauthorized "Invalid password"), sampleStore, []) ∧
    (updateProfile sampleStore 1
        { name := none, email := some "b@x.com", currentPassword := none
          newPassword := none }).2 = sampleStore :=
  ⟨C2_failed_checks_no_write.1 sampleStore 1 "wrong" alice (by decide) (by decide),
   C2_failed_checks_no_write.2 sampleStore 1
     { name := none, email := some "b@x.com", currentPassword := none, newPassword := none }
     (.badRequest "Email already exists") (by rfl)⟩

/-- Claim C3: the Authentication Gate yields the unauthorized error in
exactly three cases - no session, a session with no bound account id, or a
bound id that resolves to no account - as the first conjunct states as an
equivalence against a probe handler that cannot itself fail.  A backing-store
failure during the lookup instead surfaces as the distinct internal error,
never as unauthenticated (second and third conjuncts).  Whenever the gate
denies, the downstream handler never runs: the outcome is the same for every
handler (fourth conjunct). -/
theorem C3_auth_gate_cases :
    (∀ (sess : Option (Option ObjectId)) (s : Store),
        (∃ msg, requireAuth sess (.store s) (fun _ => Except.ok ()) =
            .error (.unauthorized msg)) ↔
          sess = none ∨ sess = some none ∨
            ∃ uid, sess = some (some uid) ∧ s.findUser uid = none) ∧
    (∀ uid : ObjectId,
        requireAuth (some (some uid)) .failure (fun _ => Except.ok ()) =
          .error (.internal "Database error")) ∧
    (∀ (uid : ObjectId) (msg : String),
        requireAuth (some (some uid)) .failure (fun _ => Except.ok ()) ≠
          .error (.unauthorized msg)) ∧
    (∀ (sess : Option (Option ObjectId)) (db : DbView),
        (∃ e, requireAuth sess db (fun _ => Except.ok ()) = .error e) →
        ∀ (α : Type) (h₁ h₂ : User → Except HErr α),
          requireAuth sess db h₁ = requireAuth sess db h₂) := by
  refine ⟨?_, fun _ => rfl, fun _ _ => by simp [requireAuth], ?_⟩
  · intro sess s
    constructor
    · rintro ⟨msg, h⟩
      rcases sess with _ | (_ | uid)
      · exact .inl rfl
      · exact .inr (.inl rfl)
      · rcases hfu : s.findUser uid with _ | u
        · exact .inr (.inr ⟨uid, rfl, hfu⟩)
        · rw [requireAuth] at h
          simp only [hfu] at h
          cases h
    · rintro (rfl | (rfl | ⟨uid, rfl, hfu⟩))
      · exact ⟨"Authentication required", rfl⟩
      · exact ⟨"Authentication required", rfl⟩
      · exact ⟨"User not found", by simp [requireAuth, hfu]⟩
  · rintro sess db ⟨e, h⟩ α h₁ h₂
    rcases sess with _ | (_ | uid)
    · rfl
    · rfl
    · rcases db with s | _
      · rcases hfu : s.findUser uid with _ | u
        · simp [requireAuth, hfu]
        · rw [requireAuth] at h
          simp only [hfu] at h
          cases h
      · rfl

/-- Witness for C3: with no session at all, the gate blocks and two
different downstream handlers observably never run - the outcome is
identical for both. -/
theorem C3_witness :
    requireAuth none (.store sampleStore) (fun _ => Except.ok (0 : Nat)) =
      requireAuth none (.store sampleStore) (fun u => Except.ok u._id) :=
  C3_auth_gate_cases.2.2.2 none (.store sampleStore)
    ⟨.unauthorized "Authentication required", rfl⟩ Nat
    (fun _ => .ok 0) (fun u => .ok u._id)

/-- Claim C4: an unauthenticated caller passing through the Authorization
Policy receives the unauthorized error whatever the required role set - never
the forbidden error (first conjunct, whose conclusion pins the result to
unauthorized); the forbidden error arises only once authentication has
succeeded - there is a session bound to an account that resolves - and the
resolved role lies outside the allowed set (second conjunct); and
requireAdmin is requireRole with the singleton admin set (third conjunct). -/
theorem C4_role_gate :
    (∀ (roles : List String) (sess : Option (Option ObjectId)) (s : Store) (α : Type)
        (next : User → Except HErr α),
        (sess = none ∨ sess = some none ∨
            ∃ uid, sess = some (some uid) ∧ s.findUser uid = none) →
        ∃ msg, requireRole roles sess (.store s) next = .error (.unauthorized msg)) ∧
    (∀ (roles : List String) (sess : Option (Option ObjectId)) (s : Store) (msg : String),
        requireRole roles sess (.store s) (fun _ => Except.ok ()) =
            .error (.forbidden msg) →
        ∃ uid u, sess = some (some uid) ∧ s.findUser uid = some u ∧
          roles.contains u.role = false) ∧
    (∀ (α : Type) (sess : Option (Option ObjectId)) (db : DbView)
        (next : User → Except HErr α),
        requireAdmin sess db next = requireRole ["admin"] sess db next) := by
  refine ⟨?_, ?_, fun _ _ _ _ => rfl⟩
  · rintro roles sess s α next (rfl | (rfl | ⟨uid, rfl, hfu⟩))
    · exact ⟨"Authentication required", rfl⟩
    · exact ⟨"Authentication required", rfl⟩
    · exact ⟨"User not found", by simp [requireRole, requireAuth, hfu]⟩
  · intro roles sess s msg h
    rcases sess with _ | (_ | uid)
    · cases h
    · cases h
    · rcases hfu : s.findUser uid with _ | u
      · rw [requireRole, requireAuth] at h
        simp only [hfu] at h
        cases h
      · refine ⟨uid, u, rfl, hfu, ?_⟩
        rw [requireRole, requireAuth] at h
        simp only [hfu] at h
        by_cases hr : roles.contains u.role
        · rw [if_pos hr] at h
          cases h
        · exact Bool.eq_false_iff.mpr hr

/-- Witness for C4: with no session, the admin role set still yields the
unauthorized error; and the forbidden outcome observed for alice (role user)
against the admin role set certifies that she was authenticated and her role
lies outside the set. -/
theorem C4_witness :
    (∃ msg, requireRole ["admin"] none (.store sampleStore) (fun _ => Except.ok ()) =
        .error (.unauthorized msg)) ∧
    ∃ uid u, (some (some 1) : Option (Option ObjectId)) = some (some uid) ∧
      sampleStore.findUser uid = some u ∧ (["admin"] : List String).contains u.role = false :=
  ⟨C4_role_gate.1 ["admin"] none sampleStore Unit (fun _ => .ok ()) (.inl rfl),
   C4_role_gate.2.1 ["admin"] (some (some 1)) sampleStore
     "Forbidden: Insufficient permissions" (by rfl)⟩

/-- Helper: the guard shared by the expense handlers - written in the source
as expense.user not equal to the requester id and role not admin - holds
exactly when the requester is neither the owner nor an admin. -/
theorem ownershipCond (e : Expense) (r : User) :
    (e.user != r._id && r.role != "admin") = true ↔
      ¬(e.user = r._id ∨ r.role = "admin") := by
  simp [Bool.and_eq_true, bne_iff_ne, not_or]

/-- Claim C5: for an existing expense, the requester can view it exactly when
the requester owns it or is an admin; otherwise viewing, deletion and update
all yield the forbidden error and the store - hence the expense - is
unchanged; when the requester is owner or admin, deletion succeeds and update
never yields the forbidden error.  Further, the expense listing only ever
returns records owned by the requester, whatever the optional category
filter. -/
theorem C5_expense_ownership :
    (∀ (s : Store) (requester : User) (id : ObjectId) (e : Expense),
        s.findExpense id = some e →
        ((getExpense s requester id = .ok e) ↔
            (e.user = requester._id ∨ requester.role = "admin")) ∧
        (¬(e.user = requester._id ∨ requester.role = "admin") →
            getExpense s requester id = .error (.forbidden "Forbidden") ∧
            deleteExpense s requester id = (.error (.forbidden "Forbidden"), s) ∧
            ∀ b, updateExpense s requester id b = (.error (.forbidden "Forbidden"), s)) ∧
        ((e.user = requester._id ∨ requester.role = "admin") →
            (deleteExpense s requester id).1 = .ok id ∧
            ∀ b, (updateExpense s requester id b).1 ≠ .error (.forbidden "Forbidden"))) ∧
    (∀ (s : Store) (requester : User) (cf : Option ObjectId) (x : Expense),
        x ∈ listExpenses s requester cf → x.user = requester._id) := by
  constructor
  · intro s requester id e hfe
    by_cases hb : (e.user != requester._id && requester.role != "admin") = true
    · have hna := (ownershipCond e requester).mp hb
      have hget : getExpense s requester id = .error (.forbidden "Forbidden") := by
        rw [getExpense]
        simp only [hfe]
        rw [if_pos hb]
      have hdel : deleteExpense s requester id = (.error (.forbidden "Forbidden"), s) := by
        rw [deleteExpense]
        simp only [hfe]
        rw [if_pos hb]
      have hupd : ∀ b, updateExpense s requester id b = (.error (.forbidden "Forbidden"), s) := by
        intro b
        rw [updateExpense]
        simp only [hfe]
        rw [if_pos hb]
      refine ⟨?_, fun _ => ⟨hget, hdel, hupd⟩, fun ha => absurd ha hna⟩
      rw [hget]
      exact ⟨fun h => absurd h (by simp), fun ha => absurd ha hna⟩
    · have ha : e.user = requester._id ∨ requester.role = "admin" := by
        by_contra hna
        exact hb ((ownershipCond e requester).mpr hna)
      have hget : getExpense s requester id = .ok e := by
        rw [getExpense]
        simp only [hfe]
        rw [if_neg hb]
      refine ⟨by rw [hget]; exact ⟨fun _ => ha, fun _ => rfl⟩,
        fun hna => absurd ha hna, fun _ => ⟨?_, ?_⟩⟩
      · rw [deleteExpense]
        simp only [hfe]
        rw [if_neg hb]
      · intro b
        rw [updateExpense]
        simp only [hfe]
        rw [if_neg hb]
        rcases hfc : s.findCategory b.categoryId with _ | c <;> simp [hfc]
  · intro s requester cf x hx
    rw [listExpenses, List.mem_mergeSort] at hx
    have hmem := List.mem_filter.mp hx
    have hb := (Bool.and_eq_true _ _).mp hmem.2
    exact beq_iff_eq.mp hb.1

/-- Concrete request body used by the witnesses: a patch carrying only the
required fields. -/
def bodyGroceries : ExpenseBody :=
  { categoryId := 10, amount := 7, currency := none, date := none
    note := none, description := none }

/-- Witness for C5: bob, who is neither the owner of expense 100 nor an
admin, is refused view, delete and update with the store unchanged; and the
one record listed for alice is indeed owned by alice. -/
theorem C5_witness :
    getExpense sampleStore bob 100 = .error (.forbidden "Forbidden") ∧
    deleteExpense sampleStore bob 100 = (.error (.forbidden "Forbidden"), sampleStore) ∧
    updateExpense sampleStore bob 100 bodyGroceries =
      (.error (.forbidden "Forbidden"), sampleStore) ∧
    expLunch.user = alice._id :=
  ⟨((C5_expense_ownership.1 sampleStore bob 100 expLunch (by decide)).2.1 (by decide)).1,
   ((C5_expense_ownership.1 sampleStore bob 100 expLunch (by decide)).2.1 (by decide)).2.1,
   ((C5_expense_ownership.1 sampleStore bob 100 expLunch (by decide)).2.1 (by decide)).2.2
     bodyGroceries,
   C5_expense_ownership.2 sampleStore alice none expLunch (List.mem_mergeSort.mpr (by decide))⟩

/-- Claim C6: deleting an existing category fails with the guard error
carrying the count of referencing expenses, and leaves the store - hence the
category - unchanged, whenever that count is positive; it deletes the
category exactly when the count is zero, and any successful deletion implies
the count was zero. -/
theorem C6_category_deletion_guard :
    ∀ (s : Store) (id : ObjectId) (category : Category),
      s.findCategory id = some category →
      (0 < s.expenses.countP (fun e => e.category == category._id) →
          deleteCategory s id =
            (.error (.badRequest (cannotDeleteCategoryMsg
                (s.expenses.countP (fun e => e.category == category._id)))), s)) ∧
      (s.expenses.countP (fun e => e.category == category._id) = 0 →
          deleteCategory s id =
            (.ok id, { s with categories := s.categories.filter (fun c => c._id != id) })) ∧
      (∀ (r : ObjectId) (s2 : Store), deleteCategory s id = (.ok r, s2) →
          s.expenses.countP (fun e => e.category == category._id) = 0) := by
  intro s id category hfc
  refine ⟨fun h => ?_, fun h => ?_, fun r s2 hok => ?_⟩
  · simp [deleteCategory, hfc, h]
  · simp [deleteCategory, hfc, h]
  · by_cases hn : 0 < s.expenses.countP (fun e => e.category == category._id)
    · simp [deleteCategory, hfc, hn] at hok
    · omega

/-- Store obtained from the sample store by deleting the one expense, the
state of the spec scenario in which category deletion succeeds. -/
def storeAfterExpenseDelete : Store := { sampleStore with expenses := [] }

/-- Witness for C6: at the sample store the category Food has one referencing
expense, so deletion fails with the count-carrying error and the store is
unchanged; after that expense is gone, deletion succeeds. -/
theorem C6_witness :
    deleteCategory sampleStore 10 =
      (.error (.badRequest (cannotDeleteCategoryMsg
          (sampleStore.expenses.countP (fun e => e.category == catFood._id)))), sampleStore) ∧
    deleteCategory storeAfterExpenseDelete 10 =
      (.ok 10, { storeAfterExpenseDelete with
          categories := storeAfterExpenseDelete.categories.filter (fun c => c._id != 10) }) :=
  ⟨(C6_category_deletion_guard sampleStore 10 catFood (by decide)).1 (by decide),
   (C6_category_deletion_guard storeAfterExpenseDelete 10 catFood (by decide)).2.1 (by decide)⟩

/-- Claim C7: category creation rejects a duplicate (name, owner) pair with
the conflict error and an unchanged store - both at the level of the shared
creation tail once the owner is resolved (first conjunct) and through the
route when the owner is a named existing target (second conjunct) - and
creating the same name twice for the self-owner makes the second call fail
with the conflict error and no new category (third conjunct). -/
theorem C7_category_conflict :
    (∀ (s : Store) (name : String) (owner newId : ObjectId),
        (∃ c ∈ s.categories, c.name = name ∧ c.user = owner) →
        createCategoryOwned s name owner newId =
          (.error (.badRequest "Category already exists for this user"), s)) ∧
    (∀ (s : Store) (requester target : User) (name : String) (uid newId : ObjectId),
        s.findUser uid = some target →
        (∃ c ∈ s.categories, c.name = name ∧ c.user = target._id) →
        createCategory s requester { name := name, userId := some uid } newId =
          (.error (.badRequest "Category already exists for this user"), s)) ∧
    (∀ (s s1 : Store) (requester : User) (name : String) (id1 id2 : ObjectId) (c : Category),
        createCategory s requester { name := name, userId := none } id1 = (.ok c, s1) →
        createCategory s1 requester { name := name, userId := none } id2 =
          (.error (.badRequest "Category already exists for this user"), s1)) := by
  have key : ∀ (s : Store) (name : String) (owner newId : ObjectId),
      (∃ c ∈ s.categories, c.name = name ∧ c.user = owner) →
      createCategoryOwned s name owner newId =
        (.error (.badRequest "Category already exists for this user"), s) := by
    rintro s name owner newId ⟨c, hc, hn, ho⟩
    have hsome : (s.categories.find? (fun c => c.name == name && c.user == owner)).isSome := by
      rw [List.find?_isSome]
      exact ⟨c, hc, by simp [hn, ho]⟩
    rw [createCategoryOwned, if_pos hsome]
  refine ⟨key, ?_, ?_⟩
  · intro s requester target name uid newId hfu hex
    rw [createCategory]
    simp only [hfu]
    exact key s name target._id newId hex
  · intro s s1 requester name id1 id2 c hok
    rw [createCategory] at hok
    simp only at hok
    by_cases hsome : (s.categories.find? (fun c => c.name == name && c.user == requester._id)).isSome
    · rw [createCategoryOwned, if_pos hsome] at hok
      cases hok
    · rw [createCategoryOwned, if_neg hsome] at hok
      simp only [Prod.mk.injEq] at hok
      have hs1 : s1 = { s with categories :=
          s.categories ++ [{ _id := id1, name := name, user := requester._id }] } :=
        hok.2.symm
      rw [createCategory]
      simp only
      apply key
      refine ⟨{ _id := id1, name := name, user := requester._id }, ?_, rfl, rfl⟩
      rw [hs1]
      simp

/-- Store obtained from the sample store by a first successful creation of
the category Trips owned by the admin. -/
def storeWithTrips : Store :=
  { sampleStore with categories :=
      sampleStore.categories ++ [{ _id := 11, name := "Trips", user := 2 }] }

/-- Witness for C7: recreating Food for owner 1 conflicts at the sample
store, and after the admin creates Trips for self, creating Trips again
fails with the conflict error and the store unchanged. -/
theorem C7_witness :
    createCategoryOwned sampleStore "Food" 1 5 =
      (.error (.badRequest "Category already exists for this user"), sampleStore) ∧
    createCategory storeWithTrips rootAdmin { name := "Trips", userId := none } 12 =
      (.error (.badRequest "Category already exists for this user"), storeWithTrips) :=
  ⟨C7_category_conflict.1 sampleStore "Food" 1 5 ⟨catFood, by decide, by decide, by decide⟩,
   C7_category_conflict.2.2 sampleStore storeWithTrips rootAdmin "Trips" 11 12
     { _id := 11, name := "Trips", user := 2 } (by rfl)⟩

/-- Helper: when the requester owns the expense or is an admin, the guard of
the expense handlers does not fire. -/
theorem ownershipCond_false (e : Expense) (r : User)
    (ha : e.user = r._id ∨ r.role = "admin") :
    ¬((e.user != r._id && r.role != "admin") = true) :=
  fun hb => (ownershipCond e r).mp hb ha

/-- Claim C8: expense creation and both expense update paths fail with the
not-found error and an untouched store whenever the referenced category is
absent; and when the category exists, creation succeeds with no condition
whatsoever relating the owner of the category to the owner of the expense -
the last conjunct quantifies over every category, so an expense may reference
a category owned by any account. -/
theorem C8_expense_category_existence :
    (∀ (s : Store) (requester : User) (b : ExpenseBody) (now newId : ObjectId),
        s.findCategory b.categoryId = none →
        createExpense s requester b now newId =
          (.error (.notFound "Category not found"), s)) ∧
    (∀ (s : Store) (requester : User) (id : ObjectId) (b : ExpenseBody) (e : Expense),
        s.findExpense id = some e →
        (e.user = requester._id ∨ requester.role = "admin") →
        s.findCategory b.categoryId = none →
        updateExpense s requester id b = (.error (.notFound "Category not found"), s)) ∧
    (∀ (s : Store) (id : ObjectId) (b : AdminExpenseBody) (e : Expense),
        s.findExpense id = some e →
        (b.userId.all fun uid => (s.findUser uid).isSome) = true →
        s.findCategory b.categoryId = none →
        adminUpdateExpense s id b = (.error (.notFound "Category not found"), s)) ∧
    (∀ (s : Store) (requester : User) (b : ExpenseBody) (now newId : ObjectId) (c : Category),
        s.findCategory b.categoryId = some c →
        ∃ e2, createExpense s requester b now newId =
            (.ok e2, { s with expenses := s.expenses ++ [e2] }) ∧
          e2.category = c._id ∧ e2.user = requester._id) := by
  refine ⟨?_, ?_, ?_, ?_⟩
  · intro s requester b now newId hfc
    simp [createExpense, hfc]
  · intro s requester id b e hfe ha hfc
    rw [updateExpense]
    simp only [hfe]
    rw [if_neg (ownershipCond_false e requester ha)]
    simp only [hfc]
  · intro s id b e hfe hu hfc
    rcases hub : b.userId with _ | uid
    · rw [adminUpdateExpense]
      simp only [hfe, hub]
      rw [adminExpenseWrite]
      simp only [hfc]
    · rw [hub] at hu
      simp only [Option.all_some] at hu
      rcases hfu : s.findUser uid with _ | u
      · rw [hfu] at hu
        cases hu
      · rw [adminUpdateExpense]
        simp only [hfe, hub, hfu]
        rw [adminExpenseWrite]
        simp only [hfc]
  · intro s requester b now newId c hfc
    refine ⟨{ _id := newId
              user := requester._id
              category := c._id
              amount := b.amount
              currency := jsOrStr b.currency "EUR"
              date := b.date.getD now
              note := jsOrOpt b.note b.description
              description := jsOrOpt b.description b.note }, ?_, rfl, rfl⟩
    rw [createExpense]
    simp only [hfc]

/-- Witness for C8: at the sample store, creating an expense against the
absent category 99 fails with not-found and no change, while bob can create
an expense against category Food even though alice owns Food. -/
theorem C8_witness :
    createExpense sampleStore bob { bodyGroceries with categoryId := 99 } 7 200 =
      (.error (.notFound "Category not found"), sampleStore) ∧
    ∃ e2, createExpense sampleStore bob bodyGroceries 7 200 =
        (.ok e2, { sampleStore with expenses := sampleStore.expenses ++ [e2] }) ∧
      e2.category = catFood._id ∧ e2.user = bob._id :=
  ⟨C8_expense_category_existence.1 sampleStore bob
     { bodyGroceries with categoryId := 99 } 7 200 (by rfl),
   C8_expense_category_existence.2.2.2 sampleStore bob bodyGroceries 7 200 catFood (by rfl)⟩

/-- Claim C9: for an authorised update of an existing expense against a
valid category, the handler writes exactly the merged record of
mergeExpenseBody (first conjunct), whose merge preserves every field the
patch does not supply - currency, date, and the note and description pair -
while substituting the validated category (second conjunct); when the
category fails validation the store, hence the stored category reference, is
untouched (third conjunct); and the admin update path behaves the same
through mergeAdminExpenseBody, additionally keeping the stored owner when no
target user is supplied (fourth and fifth conjuncts). -/
theorem C9_update_merge_frame :
    (∀ (s : Store) (requester : User) (id : ObjectId) (b : ExpenseBody)
        (e : Expense) (c : Category),
        s.findExpense id = some e →
        (e.user = requester._id ∨ requester.role = "admin") →
        s.findCategory b.categoryId = some c →
        updateExpense s requester id b =
          (.ok (mergeExpenseBody e b c), s.replaceExpense id (mergeExpenseBody e b c))) ∧
    (∀ (e : Expense) (b : ExpenseBody) (c : Category),
        (mergeExpenseBody e b c).category = c._id ∧
        (mergeExpenseBody e b c).user = e.user ∧
        (b.currency = none → (mergeExpenseBody e b c).currency = e.currency) ∧
        (b.date = none → (mergeExpenseBody e b c).date = e.date) ∧
        (b.note = none → b.description = none →
          (mergeExpenseBody e b c).note = e.note ∧
            (mergeExpenseBody e b c).description = e.description)) ∧
    (∀ (s : Store) (requester : User) (id : ObjectId) (b : ExpenseBody) (e : Expense),
        s.findExpense id = some e →
        (e.user = requester._id ∨ requester.role = "admin") →
        s.findCategory b.categoryId = none →
        updateExpense s requester id b = (.error (.notFound "Category not found"), s)) ∧
    (∀ (s : Store) (id : ObjectId) (b : AdminExpenseBody) (e : Expense) (c : Category),
        s.findExpense id = some e →
        b.userId = none →
        s.findCategory b.categoryId = some c →
        adminUpdateExpense s id b =
          (.ok (mergeAdminExpenseBody e b c),
            s.replaceExpense id (mergeAdminExpenseBody e b c))) ∧
    (∀ (e : Expense) (b : AdminExpenseBody) (c : Category),
        b.userId = none →
        (mergeAdminExpenseBody e b c).user = e.user ∧
        (b.currency = none → (mergeAdminExpenseBody e b c).currency = e.currency) ∧
        (b.date = none → (mergeAdminExpenseBody e b c).date = e.date) ∧
        (b.note = none → b.description = none →
          (mergeAdminExpenseBody e b c).note = e.note ∧
            (mergeAdminExpenseBody e b c).description = e.description)) := by
  refine ⟨?_, ?_, ?_, ?_, ?_⟩
  · intro s requester id b e c hfe ha hfc
    rw [updateExpense]
    simp only [hfe]
    rw [if_neg (ownershipCond_false e requester ha)]
    simp only [hfc]
  · intro e b c
    refine ⟨rfl, rfl, fun h => ?_, fun h => ?_, fun h1 h2 => ?_⟩
    · simp [mergeExpenseBody, jsOrStr, h]
    · simp [mergeExpenseBody, h]
    · simp [mergeExpenseBody, mergeNote, h1, h2]
  · intro s requester id b e hfe ha hfc
    rw [updateExpense]
    simp only [hfe]
    rw [if_neg (ownershipCond_false e requester ha)]
    simp only [hfc]
  · intro s id b e c hfe hub hfc
    rw [adminUpdateExpense]
    simp only [hfe, hub]
    rw [adminExpenseWrite]
    simp only [hfc]
  · intro e b c hub
    refine ⟨?_, fun h => ?_, fun h => ?_, fun h1 h2 => ?_⟩
    · simp [mergeAdminExpenseBody, hub]
    · simp [mergeAdminExpenseBody, jsOrStr, h]
    · simp [mergeAdminExpenseBody, h]
    · simp [mergeAdminExpenseBody, mergeNote, h1, h2]

/-- Concrete admin patch used by the C9 witness: no target user, no
currency, date, note or description. -/
def adminBodyGroceries : AdminExpenseBody :=
  { userId := none, categoryId := 10, amount := 8, currency := none, date := none
    note := none, description := none }

/-- Witness for C9: alice updating her expense 100 with a patch supplying
only category and amount gets exactly the merged record, which keeps her
stored currency, date, note and description; the admin path with no target
user keeps the stored owner. -/
theorem C9_witness :
    updateExpense sampleStore alice 100 bodyGroceries =
      (.ok (mergeExpenseBody expLunch bodyGroceries catFood),
        sampleStore.replaceExpense 100 (mergeExpenseBody expLunch bodyGroceries catFood)) ∧
    (mergeExpenseBody expLunch bodyGroceries catFood).currency = expLunch.currency ∧
    (mergeExpenseBody expLunch bodyGroceries catFood).date = expLunch.date ∧
    (mergeExpenseBody expLunch bodyGroceries catFood).note = expLunch.note ∧
    (mergeAdminExpenseBody expLunch adminBodyGroceries catFood).user = expLunch.user :=
  ⟨C9_update_merge_frame.1 sampleStore alice 100 bodyGroceries expLunch catFood
     (by rfl) (.inl rfl) (by rfl),
   (C9_update_merge_frame.2.1 expLunch bodyGroceries catFood).2.2.1 rfl,
   (C9_update_merge_frame.2.1 expLunch bodyGroceries catFood).2.2.2.1 rfl,
   ((C9_update_merge_frame.2.1 expLunch bodyGroceries catFood).2.2.2.2 rfl rfl).1,
   (C9_update_merge_frame.2.2.2.2 expLunch adminBodyGroceries catFood rfl).1⟩

/-- Claim C10: the serialised form of an account is independent of its
stored password hash - the toJSON transform of the user model deletes the
passwordHash field - and the admin user listing, which excludes passwordHash
at query level, returns identical output for any two stores that differ only
in password hashes; so neither mechanism can leak a hash. -/
theorem C10_password_hash_confidential :
    (∀ (u : User) (h₁ h₂ : String),
        User.toJson { u with passwordHash := h₁ } =
          User.toJson { u with passwordHash := h₂ }) ∧
    (∀ (s : Store) (f : User → String),
        adminListUsers
            { s with users := s.users.map (fun u => { u with passwordHash := f u }) } =
          adminListUsers s) := by
  constructor
  · intro u h₁ h₂
    rfl
  · intro s f
    simp only [adminListUsers]
    rw [List.map_map]
    rfl

end ExpenseTracker
